import Mathlib

/-!
Shallow embedding of the session/token lifecycle manager of `volumio-yt-support`:
the Session Wrapper (`src/lib/innertube/Wrapper.ts`), the Service Lifecycle
Manager (`src/lib/innertube/Service.ts`), the Process Supervisor
(`src/lib/innertube/Spawn.ts`) and the RPC server (`src/lib/innertube/Server.ts`).
Numbers that the TypeScript source manipulates (TTLs in seconds, epoch
milliseconds, timer delays) are embedded as `Int`; `Math.floor` of a division
becomes `Int.fdiv`.
-/

namespace YtSupport

/-- Embeds the destructuring default `const { ttl, refreshThreshold = 100 } = ...`
used both by `InnertubeSupportService.#createMinter` and by
`InnertubeWrapper.#initInnertube`: an absent (`undefined`) `refreshThreshold`
defaults to `100`. -/
def orDefaultThreshold : Option Int → Int
  | none => 100
  | some rt => rt

/-- Embeds the session-level refresh timeout computation of
`InnertubeWrapper.#initInnertube`:
`let timeout = ttl - refreshThreshold; if (timeout < 0) { timeout = 120; }`.
The result is the number of seconds for which the one-shot session refresh
timer is armed (the timer is armed only when `ttl` is truthy). -/
def sessionRefreshTimeoutSecs (ttl : Int) (refreshThreshold : Option Int) : Int :=
  let timeout := ttl - orDefaultThreshold refreshThreshold
  if timeout < 0 then 120 else timeout

/-- The spec's claimed formula for the session refresh timer:
`max(ttl - refreshThreshold, 120)` (a 120-second floor). Written from the
spec's words, to be compared against `sessionRefreshTimeoutSecs`, which is
written from the source. -/
def specSessionRefreshTimeoutSecs (ttl : Int) (refreshThreshold : Option Int) : Int :=
  max (ttl - orDefaultThreshold refreshThreshold) 120

/-- Embeds the service-level refresh delay computation of
`InnertubeSupportService.#createMinter`:
`const timeout = ttl - refreshThreshold - 100;` (seconds). -/
def minterRefreshDelaySecs (ttl : Int) (refreshThreshold : Option Int) : Int :=
  ttl - orDefaultThreshold refreshThreshold - 100

/-- Node.js `setTimeout` delay semantics: a delay below 1 ms, or above the
32-bit signed maximum, is clamped to 1 ms — the callback fires on the next
timer tick instead of an error being thrown. The service passes
`timeout * 1000` milliseconds to `setTimeout`. -/
def nodeSetTimeoutDelayMs (ms : Int) : Int :=
  if ms < 1 ∨ 2147483647 < ms then 1 else ms

/-- Embeds the adjusted TTL returned by the `/pot` handler (`potFn` in
`InnertubeSupportService.start`):
`Math.floor((ttl * 1000 + created - Date.now()) / 1000)`, where `ttl` is the
minter's declared TTL in seconds and `created`/`now` are epoch milliseconds. -/
def adjustedTTL (ttl created now : Int) : Int :=
  Int.fdiv (ttl * 1000 + created - now) 1000

/-- The status variant `InnertubeSupportServiceStatus` of `Service.ts`:
`{status:'stopped'} | {status:'started', server:{address, port}}`. -/
inductive SvcStatus
  | stopped
  | started (address : String) (port : Nat)
deriving DecidableEq

/-- The mutable fields of `InnertubeSupportService` relevant to its
start/stop lifecycle: `#status`, `#startPromise` (whether set, and its
settled value when resolved) and `#server`. -/
structure ServiceState where
  status : SvcStatus
  startPromiseSet : Bool
  startResult : Option SvcStatus
  serverSet : Bool
deriving DecidableEq

/-- The constructor of `InnertubeSupportService`: all fields null,
`#status = {status:'stopped'}`. -/
def serviceInit : ServiceState :=
  ⟨.stopped, false, none, false⟩

/-- Embeds the success path of `InnertubeSupportService.start`: when
`#startPromise` is already set, the same settled outcome is returned
(single-flight); otherwise `#server` is created and the promise resolves with
`{status:'started', server:{address, port}}`. The source never assigns
`this.#status` on this path — only the catch branch writes it — so the
`status` field is carried over unchanged. -/
def startSuccess (s : ServiceState) (address : String) (port : Nat) :
    ServiceState × Option SvcStatus :=
  if s.startPromiseSet then (s, s.startResult)
  else
    ({ s with startPromiseSet := true, serverSet := true,
              startResult := some (.started address port) },
     some (.started address port))

/-- Embeds the catch branch of `InnertubeSupportService.start`: resets
`#startPromise` and `#server` and writes `#status = {status:'stopped'}`
before rejecting. -/
def startFailure (s : ServiceState) : ServiceState :=
  if s.startPromiseSet then s
  else ⟨.stopped, false, none, false⟩

/-- Embeds `InnertubeSupportService.stop`: returns immediately when
`#status.status === 'stopped'`; otherwise closes the HTTP server via
`#server?.stop()` and resets the fields in its `finally`. The returned flag
records whether the underlying server's `stop` was invoked. -/
def stopService (s : ServiceState) : ServiceState × Bool :=
  if s.status = .stopped then (s, false)
  else (⟨.stopped, false, none, false⟩, s.serverSet)

/-- Which runtime the Process Supervisor chose for the subprocess. -/
inductive Runtime
  | node
  | deno
deriving DecidableEq

/-- Observable events of the spawned subprocess as seen by
`spawnInnertubeSupportService`: a stdout line (delivered by the readline
interface) or the process `'close'` event with its exit code. -/
inductive SpawnEvent
  | line (s : String)
  | closed (code : Int)

/-- How the promise returned by `spawnInnertubeSupportService` settled. -/
inductive SpawnSettle
  | resolved (status : SvcStatus) (runtime : Runtime)
  | rejected (msg : String)
deriving DecidableEq

/-- The readiness marker the subprocess prints before its JSON payload. -/
def readyMarker : String := "result: "

/-- Embeds the JS test `line.startsWith('result: ')`, expressed over the
strings' character sequences. -/
def startsWithMarker (l : String) : Bool :=
  readyMarker.data.isPrefixOf l.data

/-- Embeds the event handlers installed by `spawnInnertubeSupportService` on
the child process: the `'close'` handler only logs the exit code and calls
`onStop` — it neither resolves nor rejects — while the readline `'line'`
handler settles the promise on the first line carrying the `result: ` marker
(resolving when the JSON payload parses, rejecting with
`Failed to parse service result` otherwise). A settled promise is never
re-settled. The JSON parser is abstracted as `parse`. -/
def handleSpawnEvent (parse : String → Option SvcStatus) (runtime : Runtime)
    (settled : Option SpawnSettle) (ev : SpawnEvent) : Option SpawnSettle :=
  match settled with
  | some r => some r
  | none =>
    match ev with
    | .closed _ => none
    | .line l =>
      if startsWithMarker l then
        match parse (l.drop readyMarker.length) with
        | some st => some (.resolved st runtime)
        | none => some (.rejected "Failed to parse service result")
      else none

/-- The settlement state of the promise returned by
`spawnInnertubeSupportService` after the child produced `events`; `none`
means the promise is still pending. -/
def runSpawn (parse : String → Option SvcStatus) (runtime : Runtime)
    (events : List SpawnEvent) : Option SpawnSettle :=
  events.foldl (handleSpawnEvent parse runtime) none

/-- The memoization slot shared in shape by
`InnertubeSupportService.#minterPromise` and
`InnertubeWrapper.#innertubePromise`: `slot` holds the identifier of the
creation whose (pending or settled) promise it stores, `creations` counts how
many underlying creations were started, `next` supplies fresh identifiers. -/
structure MemoState where
  slot : Option Nat
  creations : Nat
  next : Nat
deriving DecidableEq

/-- Both slots start out null. -/
def memoInit : MemoState :=
  ⟨none, 0, 0⟩

/-- Embeds `InnertubeSupportService.#getMinter(forceCreate = false)`:
`if (!this.#minterPromise || forceCreate) { this.#minterPromise = this.#createMinter(); } return this.#minterPromise;`.
The test and the assignment lie in the synchronous prefix of the async method
— there is no `await` before the assignment — so under cooperative scheduling
one caller's check-and-set is a single atomic step. The returned `Nat`
identifies the creation whose promise the caller awaits. -/
def getMinterStep (s : MemoState) (forceCreate : Bool) : MemoState × Nat :=
  match s.slot, forceCreate with
  | some p, false => (s, p)
  | _, _ => (⟨some s.next, s.creations + 1, s.next + 1⟩, s.next)

/-- Embeds `InnertubeWrapper.#initInnertubePromise`:
`if (!this.#innertubePromise) { this.#innertubePromise = this.#initInnertube(); } return this.#innertubePromise;`,
a plain synchronous method. -/
def initInnertubePromiseStep (s : MemoState) : MemoState × Nat :=
  match s.slot with
  | some p => (s, p)
  | none => (⟨some s.next, s.creations + 1, s.next + 1⟩, s.next)

/-- `n` concurrent callers of `#getMinter()` (default `forceCreate = false`,
the only form the repository uses), all issued before the first pending
creation resolves; each caller's check-and-set is one atomic step. Returns
the final state and the creation identifiers the callers await. -/
def runConcurrentGetMinter (s : MemoState) : Nat → MemoState × List Nat
  | 0 => (s, [])
  | n + 1 =>
    let r := getMinterStep s false
    let rest := runConcurrentGetMinter r.1 n
    (rest.1, r.2 :: rest.2)

/-- `n` concurrent callers of `#initInnertubePromise()` (via `getInnertube`
or `create`), all issued before the first session construction resolves. -/
def runConcurrentGetInnertube (s : MemoState) : Nat → MemoState × List Nat
  | 0 => (s, [])
  | n + 1 =>
    let r := initInnertubePromiseStep s
    let rest := runConcurrentGetInnertube r.1 n
    (rest.1, r.2 :: rest.2)

/-- JavaScript truthiness of an optional string field: `undefined` and the
empty string are falsy, every other string is truthy. -/
def jsTruthyStr : Option String → Bool
  | none => false
  | some str => !(str == "")

/-- Typed errors thrown by the wrapper: `DisposedError`
(`Innertube instance already disposed`, thrown by `#checkDisposed`) and the
`Innertube support service not started` guard failure. -/
inductive WrapperErr
  | disposed
  | serviceNotStarted
deriving DecidableEq

/-- The `InnertubeWrapper` fields that its public operations read or write:
`#disposed`, `#poTokenRefreshTimer`, `#innertubePromise`,
`#lastSessionPoToken`, `#innertube`, `#service` (and whether its status is
`'started'`), `#locale` and the live client's `gl`/`hl` context fields. -/
structure WrapperState where
  disposed : Bool
  poTokenRefreshTimerSet : Bool
  innertubePromiseSet : Bool
  lastSessionPoTokenSet : Bool
  innertubeSet : Bool
  serviceSet : Bool
  serviceStarted : Bool
  localeRegion : Option String
  localeLanguage : Option String
  clientGl : Option String
  clientHl : Option String
deriving DecidableEq

/-- Embeds `InnertubeWrapper.dispose`: a second call returns immediately
(`if (this.#disposed) return;`); the first call cancels the session refresh
timer, marks the wrapper disposed, drops the cached promise, token and client
instance, and stops (drops) the service. -/
def dispose (s : WrapperState) : WrapperState :=
  if s.disposed then s
  else
    { s with poTokenRefreshTimerSet := false, disposed := true,
             innertubePromiseSet := false, lastSessionPoTokenSet := false,
             innertubeSet := false, serviceSet := false }

/-- Embeds `InnertubeWrapper.getInnertube`: `#checkDisposed()` throws first;
otherwise `#initInnertubePromise()` runs. The Bool records whether a new
session construction was started. -/
def getInnertube (s : WrapperState) : Except WrapperErr (WrapperState × Bool) :=
  if s.disposed then .error .disposed
  else if s.innertubePromiseSet then .ok (s, false)
  else .ok ({ s with innertubePromiseSet := true }, true)

/-- Embeds `InnertubeWrapper.generatePoToken`: `#checkDisposed()` runs before
any suspension point; then the guard
`if (!this.#service || this.#service.status === 'stopped')`; then the RPC
`GET /pot?identifier=...` whose identifier the success value carries. -/
def generatePoToken (s : WrapperState) (identifier : String) :
    Except WrapperErr String :=
  if s.disposed then .error .disposed
  else if !s.serviceSet || !s.serviceStarted then .error .serviceNotStarted
  else .ok identifier

/-- Embeds `InnertubeWrapper.#applyLocale` (called with the wrapper not
disposed): no-op without a live client; otherwise copies truthy locale fields
onto the client's `gl`/`hl`. -/
def applyLocale (s : WrapperState) : WrapperState :=
  if !s.innertubeSet then s
  else
    { s with clientGl := if jsTruthyStr s.localeRegion then s.localeRegion else s.clientGl,
             clientHl := if jsTruthyStr s.localeLanguage then s.localeLanguage else s.clientHl }

/-- Embeds `InnertubeWrapper.setLocale`: `#checkDisposed()` throws first;
otherwise the locale is stored and reapplied to the live client. -/
def setLocale (s : WrapperState) (region language : Option String) :
    Except WrapperErr WrapperState :=
  if s.disposed then .error .disposed
  else .ok (applyLocale { s with localeRegion := region, localeLanguage := language })

/-- The `data` field of an `/eval` request body. -/
structure EvalData where
  output : String
deriving DecidableEq

/-- The `env` field of an `/eval` request body. -/
structure EvalEnv where
  n : Option String
  sig : Option String
deriving DecidableEq

/-- Embeds the `properties` array built by `evalFnImpl`: a snippet for `n`
when `env.n` is truthy, then a snippet for `sig` when `env.sig` is truthy. -/
def evalProperties (env : EvalEnv) : List String :=
  (if jsTruthyStr env.n then
    ["n: exportedVars.nFunction(\"" ++ env.n.getD "" ++ "\")"]
  else []) ++
  (if jsTruthyStr env.sig then
    ["sig: exportedVars.sigFunction(\"" ++ env.sig.getD "" ++ "\")"]
  else [])

/-- Embeds the program text `evalFnImpl` synthesizes:
`` `${data.output}\nreturn { ${properties.join(', ')} }` ``. -/
def synthesizedEvalCode (data : EvalData) (env : EvalEnv) : String :=
  data.output ++ "\nreturn \x7b " ++ String.intercalate ", " (evalProperties env) ++ " \x7d"

/-- Keys of the object the synthesized program returns. -/
inductive EvalKey
  | nKey
  | sigKey
deriving DecidableEq

/-- The keys present in the object returned by executing the synthesized
program: exactly the properties that were pushed. -/
def evalResultKeys (env : EvalEnv) : List EvalKey :=
  (if jsTruthyStr env.n then [EvalKey.nKey] else []) ++
  (if jsTruthyStr env.sig then [EvalKey.sigKey] else [])

/-- The `/eval` request body as parsed by the JSON middleware: either field
may be absent (or JS-falsy). -/
structure EvalRequestBody where
  data : Option EvalData
  env : Option EvalEnv
deriving DecidableEq

/-- HTTP responses of the `/eval` route, a successful one described by the
keys of the result object it serializes. -/
inductive EvalResponse
  | ok (statusCode : Nat) (resultKeys : List EvalKey)
  | err (statusCode : Nat) (errorMsg : String)
deriving DecidableEq

/-- Embeds the `/eval` route handler of `InnertubeSupportServer.#setRoutes`:
`const { data, env } = req.body; if (!data || !env) return res.status(500).json({error: ...});`
then `res.status(200).json(await evalFn(data, env))`. -/
def handleEval (body : EvalRequestBody) : EvalResponse :=
  match body.data, body.env with
  | some _, some env => .ok 200 (evalResultKeys env)
  | _, _ => .err 500 "Request body is missing \"data\" or \"env\""

/-- The action the stop capability returned by
`spawnInnertubeSupportService` takes against the subprocess. -/
inductive KillAction
  | treeKill (pid : Nat)
  | noKill
deriving DecidableEq

/-- What settles the promise returned by the stop capability. -/
inductive ResolveTrigger
  | onCloseEvent
  | immediate
deriving DecidableEq

/-- The behavior the `stop` closure fixes when invoked: which kill it issues,
what resolves its promise, and whether it logged the missing-pid error. -/
structure StopPlan where
  kill : KillAction
  resolveOn : ResolveTrigger
  loggedMissingPid : Bool
deriving DecidableEq

/-- Embeds the `stop` closure of `spawnInnertubeSupportService`: with a pid
it registers `proc.once('close', () => resolve())` and then calls
`kill(proc.pid)` — the `tree-kill` package's kill, which terminates the
subprocess's entire descendant tree; without a pid it logs
`Could not stop service because process lacks pid` and resolves at once. -/
def stopPlan (pid : Option Nat) : StopPlan :=
  match pid with
  | some p => ⟨.treeKill p, .onCloseEvent, false⟩
  | none => ⟨.noKill, .immediate, true⟩

/-- Whether a subprocess event is the `'close'` (exit) event. -/
def isCloseEvent : SpawnEvent → Bool
  | .closed _ => true
  | .line _ => false

/-- Index of the first `'close'` event among the events the subprocess emits
after `stop` is invoked — the point at which the registered one-shot
`'close'` listener fires. -/
def closeEventIdx : List SpawnEvent → Option Nat
  | [] => none
  | e :: rest =>
    if isCloseEvent e then some 0 else (closeEventIdx rest).map (· + 1)

/-- The event index at which the stop promise resolves (`none`: it never
resolves within the observed events). -/
def stopResolveIdx (plan : StopPlan) (events : List SpawnEvent) : Option Nat :=
  match plan.resolveOn with
  | .immediate => some 0
  | .onCloseEvent => closeEventIdx events

/-- State of one refresh-timer cycle owner together with the runtime's timer
queue. For the service (`InnertubeSupportService`): `slot` is
`#minterPromise !== null`, `inFlight` marks a `#createMinter` call between
its entry `#clearRefreshMinterTimer()` and its settling, `ref` is the handle
stored in `#refreshMinterTimer`, `live` lists the timers that are armed and
neither fired nor cancelled, and `next` supplies fresh timer handles. The
wrapper's fields (`#innertubePromise`, `#initInnertube`,
`#poTokenRefreshTimer`) have the same shape. -/
structure TimerSys where
  slot : Bool
  inFlight : Bool
  ref : Option Nat
  live : List Nat
  next : Nat
deriving DecidableEq

/-- Initially no promise, no in-flight creation, no timer. -/
def timerSysInit : TimerSys :=
  ⟨false, false, none, [], 0⟩

/-- Embeds `#clearRefreshMinterTimer` / `#clearPoTokenRefreshTimer`: when a
handle is stored, `clearTimeout` cancels it (a no-op if it already fired);
the field is then nulled. -/
def clearTimerField (s : TimerSys) : TimerSys :=
  { s with
    live := match s.ref with
      | none => s.live
      | some t => s.live.erase t,
    ref := none }

/-- The synchronous entry of a refresh cycle (`#createMinter` /
`#initInnertube`): clear the stored timer, set the memo slot, mark the
creation in flight. -/
def startCycle (s : TimerSys) : TimerSys :=
  { clearTimerField s with slot := true, inFlight := true }

/-- The arming statement (`this.#refreshMinterTimer = setTimeout(...)` /
`this.#poTokenRefreshTimer = setTimeout(...)`): a fresh timer becomes live
and its handle is stored; the creation is no longer in flight. -/
def armTimer (s : TimerSys) : TimerSys :=
  { s with inFlight := false, ref := some s.next,
           live := s.next :: s.live, next := s.next + 1 }

/-- A live timer fires: it leaves the live set (it is spent, not cancelled);
the stored handle still names it until the next clear. -/
def fireTimer (s : TimerSys) (t : Nat) : TimerSys :=
  { s with live := s.live.erase t }

/-- Small-step transitions of the service's minter-refresh cycle.
`getMinterCreate`: `#getMinter()` finds `#minterPromise` null (the slot is
never nulled, and `forceCreate = true` is never passed in this repository)
and synchronously assigns `#createMinter()`, whose synchronous prefix clears
the timer before its first `await`. `createFinish`: the awaited
`createPoTokenMinter()` resolves and the refresh timer is armed — the only
arming site. `createFail`: it rejects; no timer is armed. `timerFire`: a live
timer fires, leaving the live set; its callback synchronously assigns
`#minterPromise = #createMinter()`, whose prefix clears the (already fired)
stored handle. -/
inductive SvcStep : TimerSys → TimerSys → Prop
  | getMinterCreate (s : TimerSys) (h : s.slot = false) :
      SvcStep s (startCycle s)
  | createFinish (s : TimerSys) (h : s.inFlight = true) :
      SvcStep s (armTimer s)
  | createFail (s : TimerSys) (h : s.inFlight = true) :
      SvcStep s { s with inFlight := false }
  | timerFire (s : TimerSys) (t : Nat) (h : t ∈ s.live) :
      SvcStep s (startCycle (fireTimer s t))

/-- States of the service reachable from its constructor state. -/
inductive SvcReachable : TimerSys → Prop
  | init : SvcReachable timerSysInit
  | step {s s' : TimerSys} : SvcReachable s → SvcStep s s' → SvcReachable s'

/-- The wrapper's cycle state: the timer system of
`#poTokenRefreshTimer` / `#initInnertube`, plus the `#disposed` flag. -/
structure WrapTimerSys where
  core : TimerSys
  disposed : Bool
deriving DecidableEq

/-- A fresh wrapper. -/
def wrapTimerSysInit : WrapTimerSys :=
  ⟨timerSysInit, false⟩

/-- Small-step transitions of the wrapper's session-refresh cycle.
`initCall`: `getInnertube`/`create` finds `#innertubePromise` null on a
non-disposed wrapper and synchronously assigns `#initInnertube()`, whose
first statement is `#clearPoTokenRefreshTimer()`. `initFinishArm`: session
construction resolves with a token carrying a truthy ttl and arms the session
refresh timer — the only arming site. `initFinishNoArm`: construction settles
without arming (no token, no ttl, or a rejection — e.g. post-dispose, where
`#applyLocale`'s `#checkDisposed` throws). `refreshFire`: a live timer fires
and `#refreshSessionPoToken` synchronously clears the stored handle and
starts `#initInnertube()`. `disposeCall`: `dispose()` on a non-disposed
wrapper clears the timer and nulls `#innertubePromise`. -/
inductive WrapStep : WrapTimerSys → WrapTimerSys → Prop
  | initCall (w : WrapTimerSys) (h1 : w.disposed = false) (h2 : w.core.slot = false) :
      WrapStep w ⟨startCycle w.core, false⟩
  | initFinishArm (w : WrapTimerSys) (h : w.core.inFlight = true) :
      WrapStep w ⟨armTimer w.core, w.disposed⟩
  | initFinishNoArm (w : WrapTimerSys) (h : w.core.inFlight = true) :
      WrapStep w ⟨{ w.core with inFlight := false }, w.disposed⟩
  | refreshFire (w : WrapTimerSys) (t : Nat) (h : t ∈ w.core.live) :
      WrapStep w ⟨startCycle (fireTimer w.core t), w.disposed⟩
  | disposeCall (w : WrapTimerSys) (h : w.disposed = false) :
      WrapStep w ⟨{ clearTimerField w.core with slot := false }, true⟩

/-- States of the wrapper reachable from a fresh instance. -/
inductive WrapReachable : WrapTimerSys → Prop
  | init : WrapReachable wrapTimerSysInit
  | step {w w' : WrapTimerSys} : WrapReachable w → WrapStep w w' → WrapReachable w'

/-- The timer-cycle invariant: at most one live timer; none while a creation
is between its entry clear and its arming; the stored handle tracks the live
timer. -/
def timerInv (s : TimerSys) : Prop :=
  s.live.length ≤ 1 ∧ (s.inFlight = true → s.live = []) ∧ ∀ t ∈ s.live, s.ref = some t

/-- C1 counterexample: the code computes `ttl - refreshThreshold` and replaces
it by 120 only when negative; it does not apply a 120-second floor. At
`ttl = 150, refreshThreshold = 100` the timer is armed for 50 seconds, while
the claim's formula `max(ttl - refreshThreshold, 120)` gives 120. -/
theorem session_refresh_no_floor_counterexample :
    sessionRefreshTimeoutSecs 150 (some 100) = 50 ∧
    specSessionRefreshTimeoutSecs 150 (some 100) = 120 ∧
    sessionRefreshTimeoutSecs 150 (some 100) ≠
      specSessionRefreshTimeoutSecs 150 (some 100) := by
  decide

/-- C1 (amended): for every session-level token with a ttl and a
refreshThreshold (defaulting to 100 when absent), the session refresh timer is
armed for `ttl - refreshThreshold` seconds when that difference is
nonnegative, and for 120 seconds only when it is negative; in particular, for
ttl=200, refreshThreshold=100 the timer is armed for 100 seconds, and for
ttl=150, refreshThreshold=100 it is armed for 50 seconds. -/
theorem session_refresh_timeout_amended (ttl : Int) (rt : Option Int) :
    (orDefaultThreshold rt ≤ ttl →
      sessionRefreshTimeoutSecs ttl rt = ttl - orDefaultThreshold rt) ∧
    (ttl < orDefaultThreshold rt → sessionRefreshTimeoutSecs ttl rt = 120) ∧
    sessionRefreshTimeoutSecs 200 (some 100) = 100 ∧
    sessionRefreshTimeoutSecs 150 (some 100) = 50 ∧
    sessionRefreshTimeoutSecs 200 none = 100 := by
  refine ⟨?_, ?_, by decide, by decide, by decide⟩
  · intro h
    simp only [sessionRefreshTimeoutSecs]
    omega
  · intro h
    simp only [sessionRefreshTimeoutSecs]
    omega

/-- Witness for `session_refresh_timeout_amended` at ttl=150, rt=100 and
ttl=50, rt=100. -/
theorem session_refresh_timeout_amended_witness :
    sessionRefreshTimeoutSecs 150 (some 100) = 150 - 100 ∧
    sessionRefreshTimeoutSecs 50 (some 100) = 120 :=
  ⟨(session_refresh_timeout_amended 150 (some 100)).1 (by decide),
   ((session_refresh_timeout_amended 50 (some 100)).2).1 (by decide)⟩

/-- C4: the service-level refresh delay is `ttl - refreshThreshold - 100`
seconds (refreshThreshold defaulting to 100 when absent); for ttl=500,
refreshThreshold=100 the refresh is scheduled at 300 seconds; for ttl=50,
refreshThreshold=100 the delay is negative (−150) and, per `setTimeout`
clamping, the refresh fires on the next tick (1 ms) rather than the operation
throwing. -/
theorem minter_refresh_delay (ttl rt : Int) :
    minterRefreshDelaySecs ttl (some rt) = ttl - rt - 100 ∧
    minterRefreshDelaySecs ttl none = ttl - 100 - 100 ∧
    minterRefreshDelaySecs 500 (some 100) = 300 ∧
    minterRefreshDelaySecs 50 (some 100) = -150 ∧
    minterRefreshDelaySecs 50 (some 100) < 0 ∧
    nodeSetTimeoutDelayMs (minterRefreshDelaySecs 50 (some 100) * 1000) = 1 :=
  ⟨rfl, rfl, by decide, by decide, by decide, by decide⟩

/-- C10: the `/pot` response's `ttl` field equals
`Math.floor((ttl*1000 + created - now)/1000)`; it is monotonically
non-increasing in `now`; after a whole number `e` of elapsed seconds it equals
`ttl - e` (in particular it reaches 0 at `e = ttl`); and for a minter older
than its declared ttl it is negative. -/
theorem pot_adjusted_ttl (ttl created now now2 e : Int) :
    adjustedTTL ttl created now = Int.fdiv (ttl * 1000 + created - now) 1000 ∧
    (now ≤ now2 → adjustedTTL ttl created now2 ≤ adjustedTTL ttl created now) ∧
    adjustedTTL ttl created (created + e * 1000) = ttl - e ∧
    (created + ttl * 1000 < now → adjustedTTL ttl created now < 0) := by
  refine ⟨rfl, ?_, ?_, ?_⟩
  · intro h
    simp only [adjustedTTL]
    rw [Int.fdiv_eq_ediv _ (by norm_num), Int.fdiv_eq_ediv _ (by norm_num)]
    exact Int.ediv_le_ediv (by norm_num) (by omega)
  · have hnum : ttl * 1000 + created - (created + e * 1000) = (ttl - e) * 1000 := by
      ring
    simp only [adjustedTTL, hnum]
    exact Int.mul_fdiv_cancel _ (by norm_num)
  · intro h
    simp only [adjustedTTL]
    exact Int.fdiv_neg' (by omega) (by norm_num)

/-- Witness for `pot_adjusted_ttl`: declared ttl 300 s, minter created at
epoch 1000000 ms, queried 5000 ms later and again 600000 ms later. -/
theorem pot_adjusted_ttl_witness :
    adjustedTTL 300 1000000 1005000 =
      Int.fdiv (300 * 1000 + 1000000 - 1005000) 1000 ∧
    adjustedTTL 300 1000000 1605000 ≤ adjustedTTL 300 1000000 1005000 ∧
    adjustedTTL 300 1000000 (1000000 + 5 * 1000) = 300 - 5 ∧
    adjustedTTL 300 1000000 1605000 < 0 := by
  have h := pot_adjusted_ttl 300 1000000 1005000 1605000 5
  have h2 := pot_adjusted_ttl 300 1000000 1605000 1605000 5
  exact ⟨h.1, h.2.1 (by decide), h.2.2.1, h2.2.2.2 (by decide)⟩

/-- C2 (code evaluated at the failing input): a fresh
`InnertubeSupportService` whose `start()` resolves successfully with address
`127.0.0.1` and port `3000` still reports `status = stopped` through its
getter — the success path never assigns the `started` variant — and the
subsequent `stop()` returns without invoking the HTTP server's `stop`,
leaving the state unchanged. -/
theorem service_start_never_marks_started :
    (startSuccess serviceInit "127.0.0.1" 3000).2 =
      some (SvcStatus.started "127.0.0.1" 3000) ∧
    (startSuccess serviceInit "127.0.0.1" 3000).1.status = SvcStatus.stopped ∧
    stopService (startSuccess serviceInit "127.0.0.1" 3000).1 =
      ((startSuccess serviceInit "127.0.0.1" 3000).1, false) :=
  ⟨rfl, rfl, rfl⟩

/-- C3 (code evaluated at the failing input): for every run in which the
subprocess emits only diagnostic lines (none carrying the `result: ` marker)
and then exits, the promise returned by `spawnInnertubeSupportService`
remains pending — it neither resolves nor rejects, contrary to the claimed
`ServiceStartError` failure. -/
theorem spawn_exit_before_readiness_stays_pending
    (parse : String → Option SvcStatus) (runtime : Runtime)
    (diag : List String) (code : Int)
    (h : ∀ l ∈ diag, startsWithMarker l = false) :
    runSpawn parse runtime (diag.map .line ++ [.closed code]) = none := by
  induction diag with
  | nil => rfl
  | cons l rest ih =>
    have hl : startsWithMarker l = false := h l (by simp)
    have hrest : ∀ x ∈ rest, startsWithMarker x = false :=
      fun x hx => h x (by simp [hx])
    simpa [runSpawn, handleSpawnEvent, hl] using ih hrest

/-- Witness for `spawn_exit_before_readiness_stays_pending`: the child
prints one diagnostic line and closes with exit code 1. -/
theorem spawn_exit_before_readiness_stays_pending_witness :
    runSpawn (fun _ => none) Runtime.node
      ([SpawnEvent.line "Start service with Node", SpawnEvent.closed 1]) = none :=
  spawn_exit_before_readiness_stays_pending (fun _ => none) Runtime.node
    ["Start service with Node"] 1 (by decide)

/-- Once the memo slot holds creation `p`, further `#getMinter()` callers
leave the state unchanged and all receive `p`. -/
lemma runConcurrentGetMinter_filled (p : Nat) (s : MemoState)
    (hs : s.slot = some p) :
    ∀ n, runConcurrentGetMinter s n = (s, List.replicate n p) := by
  intro n
  induction n with
  | zero => rfl
  | succ m ih =>
    simp only [runConcurrentGetMinter, getMinterStep, hs, ih, List.replicate]

/-- Once the memo slot holds construction `p`, further
`#initInnertubePromise()` callers leave the state unchanged and all
receive `p`. -/
lemma runConcurrentGetInnertube_filled (p : Nat) (s : MemoState)
    (hs : s.slot = some p) :
    ∀ n, runConcurrentGetInnertube s n = (s, List.replicate n p) := by
  intro n
  induction n with
  | zero => rfl
  | succ m ih =>
    simp only [runConcurrentGetInnertube, initInnertubePromiseStep, hs, ih,
      List.replicate]

/-- C5: for `n ≥ 1` concurrent callers of `#getMinter()` (service level) or
of `#initInnertubePromise()` (wrapper level) issued before the first pending
creation resolves, exactly one underlying creation is started — the memo slot
is written in the synchronous step of the first caller — and every caller
awaits that same creation (identifier 0). -/
theorem single_flight_creation (n : Nat) (h : 1 ≤ n) :
    ((runConcurrentGetMinter memoInit n).1.creations = 1 ∧
      ∀ r ∈ (runConcurrentGetMinter memoInit n).2, r = 0) ∧
    ((runConcurrentGetInnertube memoInit n).1.creations = 1 ∧
      ∀ r ∈ (runConcurrentGetInnertube memoInit n).2, r = 0) := by
  obtain ⟨m, rfl⟩ : ∃ m, n = m + 1 := ⟨n - 1, by omega⟩
  have h1 : runConcurrentGetMinter memoInit (m + 1) =
      (⟨some 0, 1, 1⟩, 0 :: List.replicate m 0) := by
    simp only [runConcurrentGetMinter, getMinterStep, memoInit,
      runConcurrentGetMinter_filled 0 ⟨some 0, 1, 1⟩ rfl m]
  have h2 : runConcurrentGetInnertube memoInit (m + 1) =
      (⟨some 0, 1, 1⟩, 0 :: List.replicate m 0) := by
    simp only [runConcurrentGetInnertube, initInnertubePromiseStep, memoInit,
      runConcurrentGetInnertube_filled 0 ⟨some 0, 1, 1⟩ rfl m]
  refine ⟨⟨by simp [h1], ?_⟩, ⟨by simp [h2], ?_⟩⟩
  · intro r hr
    rw [h1] at hr
    rcases List.mem_cons.mp hr with h' | h'
    · exact h'
    · exact List.eq_of_mem_replicate h'
  · intro r hr
    rw [h2] at hr
    rcases List.mem_cons.mp hr with h' | h'
    · exact h'
    · exact List.eq_of_mem_replicate h'

/-- Witness for `single_flight_creation` at `n = 3`. -/
theorem single_flight_creation_witness :
    (runConcurrentGetMinter memoInit 3).1.creations = 1 ∧
    (runConcurrentGetInnertube memoInit 3).1.creations = 1 :=
  ⟨((single_flight_creation 3 (by decide)).1).1,
   ((single_flight_creation 3 (by decide)).2).1⟩

/-- C6: `dispose()` marks the wrapper disposed, a second `dispose()` is a
no-op (both on an already-disposed state and as idempotence of the
operation), and after `dispose()` every public operation — `getInnertube`,
`generatePoToken`, `setLocale` — fails with `DisposedError` from the
`#checkDisposed` guard that runs before any suspension point. -/
theorem dispose_idempotent_and_blocks (s : WrapperState) (identifier : String)
    (region language : Option String) :
    (dispose s).disposed = true ∧
    dispose (dispose s) = dispose s ∧
    (s.disposed = true → dispose s = s) ∧
    getInnertube (dispose s) = .error .disposed ∧
    generatePoToken (dispose s) identifier = .error .disposed ∧
    setLocale (dispose s) region language = .error .disposed := by
  by_cases hd : s.disposed
  · simp [dispose, getInnertube, generatePoToken, setLocale, hd]
  · simp [dispose, getInnertube, generatePoToken, setLocale, hd]

/-- Witness for `dispose_idempotent_and_blocks`: a fully live wrapper state
for the blocking conjuncts, and an already-disposed state for the second-call
no-op conjunct (its hypothesis discharged by `rfl`). -/
theorem dispose_idempotent_and_blocks_witness :
    getInnertube (dispose
      ⟨false, true, true, true, true, true, true, none, none, none, none⟩) =
      .error .disposed ∧
    dispose
        ⟨true, false, false, false, false, false, true, none, none, none, none⟩ =
      ⟨true, false, false, false, false, false, true, none, none, none, none⟩ :=
  ⟨(dispose_idempotent_and_blocks
      ⟨false, true, true, true, true, true, true, none, none, none, none⟩
      "vid" none none).2.2.2.1,
   (dispose_idempotent_and_blocks
      ⟨true, false, false, false, false, false, true, none, none, none, none⟩
      "vid" none none).2.2.1 rfl⟩

/-- C9: for every POST `/eval` request, a body missing `data` or missing
`env` yields HTTP 500 with an `error` field; a well-formed body with `env.n`
not set (JS-falsy) and `env.sig` set yields a result object containing only
the `sig` key; and a well-formed body with neither `n` nor `sig` set still
executes — the synthesized program is `data.output` followed by an empty
return clause — and yields an empty result object rather than an error. -/
theorem eval_route_cases (body : EvalRequestBody) (d : EvalData) (env : EvalEnv) :
    (body.data = none ∨ body.env = none →
      handleEval body = .err 500 "Request body is missing \"data\" or \"env\"") ∧
    (jsTruthyStr env.n = false → jsTruthyStr env.sig = true →
      handleEval ⟨some d, some env⟩ = .ok 200 [EvalKey.sigKey]) ∧
    (jsTruthyStr env.n = false → jsTruthyStr env.sig = false →
      handleEval ⟨some d, some env⟩ = .ok 200 [] ∧
      synthesizedEvalCode d env = d.output ++ "\nreturn \x7b  \x7d") := by
  refine ⟨?_, ?_, ?_⟩
  · intro h
    obtain ⟨bd, be⟩ := body
    rcases h with h | h <;> simp only at h <;> subst h
    · cases be <;> rfl
    · cases bd <;> rfl
  · intro hn hsig
    simp [handleEval, evalResultKeys, hn, hsig]
  · intro hn hsig
    constructor
    · simp [handleEval, evalResultKeys, hn, hsig]
    · simp only [synthesizedEvalCode, evalProperties, hn, hsig, Bool.false_eq_true,
        if_false, List.append_nil]
      rw [String.append_assoc, String.append_assoc]
      rfl

/-- Witness for `eval_route_cases`: a body missing both fields, a body with
only `env.sig = "AAA"`, and a body whose `env` has neither field. -/
theorem eval_route_cases_witness :
    handleEval ⟨none, none⟩ =
      .err 500 "Request body is missing \"data\" or \"env\"" ∧
    handleEval ⟨some ⟨"var exportedVars = 1"⟩, some ⟨none, some "AAA"⟩⟩ =
      .ok 200 [EvalKey.sigKey] ∧
    handleEval ⟨some ⟨"var exportedVars = 1"⟩, some ⟨none, none⟩⟩ =
      .ok 200 [] :=
  ⟨(eval_route_cases ⟨none, none⟩ ⟨""⟩ ⟨none, none⟩).1 (Or.inl rfl),
   (eval_route_cases ⟨none, none⟩ ⟨"var exportedVars = 1"⟩
      ⟨none, some "AAA"⟩).2.1 rfl (by decide),
   ((eval_route_cases ⟨none, none⟩ ⟨"var exportedVars = 1"⟩
      ⟨none, none⟩).2.2 rfl rfl).1⟩

/-- Clearing the timer field empties the live set whenever the stored handle
tracks every live timer (the invariant's bookkeeping conjuncts). -/
lemma clearTimerField_live_nil (s : TimerSys) (hlen : s.live.length ≤ 1)
    (href : ∀ t ∈ s.live, s.ref = some t) : (clearTimerField s).live = [] := by
  rcases hl : s.live with _ | ⟨a, rest⟩
  · rcases hr : s.ref with _ | t <;> simp [clearTimerField, hr, hl]
  · rcases rest with _ | ⟨b, rest2⟩
    · have hra : s.ref = some a := href a (by rw [hl]; simp)
      simp [clearTimerField, hra, hl]
    · rw [hl] at hlen
      simp at hlen

/-- A live set of length at most one containing `t` is exactly `[t]`. -/
lemma live_singleton (s : TimerSys) (hlen : s.live.length ≤ 1) {t : Nat}
    (ht : t ∈ s.live) : s.live = [t] := by
  rcases hl : s.live with _ | ⟨a, rest⟩
  · rw [hl] at ht; simp at ht
  · rcases rest with _ | ⟨b, rest2⟩
    · rw [hl] at ht
      simp at ht
      rw [ht]
    · rw [hl] at hlen
      simp at hlen

/-- The invariant holds in the fresh state. -/
lemma timerInv_init : timerInv timerSysInit :=
  ⟨by simp [timerSysInit], by intro h; exact absurd h (by simp [timerSysInit]),
   by intro t ht; simp [timerSysInit] at ht⟩

/-- Entering a refresh cycle preserves the invariant: the entry clear leaves
no live timer. -/
lemma timerInv_startCycle (s : TimerSys) (hs : timerInv s) :
    timerInv (startCycle s) := by
  have hnil : (clearTimerField s).live = [] :=
    clearTimerField_live_nil s hs.1 hs.2.2
  refine ⟨?_, ?_, ?_⟩
  · show (clearTimerField s).live.length ≤ 1
    rw [hnil]; simp
  · intro _
    show (clearTimerField s).live = []
    exact hnil
  · intro t ht
    have ht' : t ∈ (clearTimerField s).live := ht
    rw [hnil] at ht'
    simp at ht'

/-- Arming preserves the invariant: arming only happens with a creation in
flight, and in-flight states have no live timer, so afterwards exactly the
fresh timer is live and tracked. -/
lemma timerInv_armTimer (s : TimerSys) (hs : timerInv s)
    (hf : s.inFlight = true) : timerInv (armTimer s) := by
  have hl : s.live = [] := hs.2.1 hf
  refine ⟨?_, ?_, ?_⟩
  · simp [armTimer, hl]
  · intro hc
    exact absurd hc (by simp [armTimer])
  · intro t ht
    simp [armTimer, hl] at ht
    simp [armTimer, ht]

/-- A creation settling without arming preserves the invariant. -/
lemma timerInv_stopFlight (s : TimerSys) (hs : timerInv s) :
    timerInv { s with inFlight := false } := by
  refine ⟨hs.1, ?_, hs.2.2⟩
  intro hc
  exact absurd hc (by simp)

/-- A timer firing preserves the invariant: the single live timer is spent. -/
lemma timerInv_fireTimer (s : TimerSys) (hs : timerInv s) {t : Nat}
    (ht : t ∈ s.live) : timerInv (fireTimer s t) := by
  have hl : s.live = [t] := live_singleton s hs.1 ht
  refine ⟨?_, ?_, ?_⟩
  · simp [fireTimer, hl]
  · intro _
    simp [fireTimer, hl]
  · intro u hu
    simp [fireTimer, hl] at hu

/-- Disposing preserves the invariant: the clear leaves no live timer. -/
lemma timerInv_disposeCore (s : TimerSys) (hs : timerInv s) :
    timerInv { clearTimerField s with slot := false } := by
  have hnil : (clearTimerField s).live = [] :=
    clearTimerField_live_nil s hs.1 hs.2.2
  refine ⟨?_, ?_, ?_⟩
  · show (clearTimerField s).live.length ≤ 1
    rw [hnil]; simp
  · intro _
    show (clearTimerField s).live = []
    exact hnil
  · intro t ht
    have ht' : t ∈ (clearTimerField s).live := ht
    rw [hnil] at ht'
    simp at ht'

/-- Every service step preserves the timer invariant. -/
lemma svcStep_inv {s s' : TimerSys} (hstep : SvcStep s s') (hs : timerInv s) :
    timerInv s' := by
  cases hstep with
  | getMinterCreate h => exact timerInv_startCycle _ hs
  | createFinish h => exact timerInv_armTimer _ hs h
  | createFail h => exact timerInv_stopFlight _ hs
  | timerFire t h => exact timerInv_startCycle _ (timerInv_fireTimer _ hs h)

/-- The timer invariant holds in every reachable service state. -/
lemma svcReachable_inv {s : TimerSys} (h : SvcReachable s) : timerInv s := by
  induction h with
  | init => exact timerInv_init
  | step hr hstep ih => exact svcStep_inv hstep ih

/-- Every wrapper step preserves the timer invariant of its core. -/
lemma wrapStep_inv {w w' : WrapTimerSys} (hstep : WrapStep w w')
    (hs : timerInv w.core) : timerInv w'.core := by
  cases hstep with
  | initCall h1 h2 => exact timerInv_startCycle _ hs
  | initFinishArm h => exact timerInv_armTimer _ hs h
  | initFinishNoArm h => exact timerInv_stopFlight _ hs
  | refreshFire t h => exact timerInv_startCycle _ (timerInv_fireTimer _ hs h)
  | disposeCall h => exact timerInv_disposeCore _ hs

/-- The timer invariant holds in every reachable wrapper state. -/
lemma wrapReachable_inv {w : WrapTimerSys} (h : WrapReachable w) :
    timerInv w.core := by
  induction h with
  | init => exact timerInv_init
  | step hr hstep ih => exact wrapStep_inv hstep ih

/-- C7: in every reachable state of the service's minter-refresh cycle and of
the wrapper's session-refresh cycle, at most one refresh timer is pending,
and while a refresh cycle is between its entry (which cancels the previously
stored timer before any suspension) and its own arming, no timer is pending
at all — so the arming always happens with the previous cycle's timer already
cancelled or fired, and two refresh callbacks for the same cycle are never
pending simultaneously. -/
theorem refresh_timer_single_pending :
    (∀ s, SvcReachable s →
      s.live.length ≤ 1 ∧ (s.inFlight = true → s.live = [])) ∧
    (∀ w, WrapReachable w →
      w.core.live.length ≤ 1 ∧ (w.core.inFlight = true → w.core.live = [])) :=
  ⟨fun _ h => ⟨(svcReachable_inv h).1, (svcReachable_inv h).2.1⟩,
   fun _ h => ⟨(wrapReachable_inv h).1, (wrapReachable_inv h).2.1⟩⟩

/-- Witness for `refresh_timer_single_pending`: the service state reached by
one `#getMinter()` creation followed by its arming, and a fresh wrapper. -/
theorem refresh_timer_single_pending_witness :
    (⟨true, false, some 0, [0], 1⟩ : TimerSys).live.length ≤ 1 ∧
    wrapTimerSysInit.core.live.length ≤ 1 := by
  refine ⟨?_, ?_⟩
  · have hr : SvcReachable ⟨true, false, some 0, [0], 1⟩ :=
      SvcReachable.step
        (SvcReachable.step SvcReachable.init
          (SvcStep.getMinterCreate timerSysInit rfl))
        (SvcStep.createFinish (startCycle timerSysInit) rfl)
    exact (refresh_timer_single_pending.1 _ hr).1
  · exact (refresh_timer_single_pending.2 wrapTimerSysInit WrapReachable.init).1

/-- A settlement index produced by `closeEventIdx` points at a close event. -/
lemma closeEventIdx_spec :
    ∀ (events : List SpawnEvent) (i : Nat), closeEventIdx events = some i →
      ∃ c, events.get? i = some (SpawnEvent.closed c) := by
  intro events
  induction events with
  | nil => intro i h; simp [closeEventIdx] at h
  | cons e rest ih =>
    intro i h
    cases e with
    | closed c =>
      simp [closeEventIdx, isCloseEvent] at h
      exact ⟨c, by rw [← h]; rfl⟩
    | line str =>
      simp only [closeEventIdx, isCloseEvent, Bool.false_eq_true, if_false] at h
      rcases Option.map_eq_some'.mp h with ⟨j, hj, hji⟩
      subst hji
      obtain ⟨c, hc⟩ := ih j hj
      exact ⟨c, by simpa using hc⟩

/-- Without a close event the listener never fires. -/
lemma closeEventIdx_none_of_no_close :
    ∀ events : List SpawnEvent, (∀ e ∈ events, isCloseEvent e = false) →
      closeEventIdx events = none := by
  intro events
  induction events with
  | nil => intro _; rfl
  | cons e rest ih =>
    intro h
    have he : isCloseEvent e = false := h e (by simp)
    have hrest := ih fun x hx => h x (by simp [hx])
    simp [closeEventIdx, he, hrest]

/-- C8: invoked on a process with a pid, the stop capability issues the
`tree-kill` kill of the subprocess's entire descendant tree, and its promise
resolves exactly at the observation of the subprocess's `'close'` event —
never before one, and never at all if no close event occurs. -/
theorem stop_treekills_and_resolves_on_close (p : Nat)
    (events : List SpawnEvent) (i : Nat) :
    (stopPlan (some p)).kill = KillAction.treeKill p ∧
    (stopResolveIdx (stopPlan (some p)) events = some i →
      ∃ c, events.get? i = some (SpawnEvent.closed c)) ∧
    ((∀ e ∈ events, isCloseEvent e = false) →
      stopResolveIdx (stopPlan (some p)) events = none) := by
  refine ⟨rfl, ?_, ?_⟩
  · intro h
    exact closeEventIdx_spec events i h
  · intro h
    show closeEventIdx events = none
    exact closeEventIdx_none_of_no_close events h

/-- Witness for `stop_treekills_and_resolves_on_close`: pid 42, the child
echoes one diagnostic line and then closes with code 0, resolving the stop
promise at index 1. -/
theorem stop_treekills_and_resolves_on_close_witness :
    (stopPlan (some 42)).kill = KillAction.treeKill 42 ∧
    ∃ c, [SpawnEvent.line "Stopping service...", SpawnEvent.closed 0].get? 1 =
      some (SpawnEvent.closed c) :=
  ⟨(stop_treekills_and_resolves_on_close 42
      [SpawnEvent.line "Stopping service...", SpawnEvent.closed 0] 1).1,
   (stop_treekills_and_resolves_on_close 42
      [SpawnEvent.line "Stopping service...", SpawnEvent.closed 0] 1).2.1 rfl⟩

end YtSupport
